import Mathlib

/-!
Shallow embedding of the relay and command-correlation subsystem of the
talk-to-figma MCP server (src/talk_to_figma_mcp/utils/websocket.ts and
src/talk_to_figma_mcp/utils/websocket-server.ts).

Timers are modelled as absolute deadlines (Nat milliseconds); promise
settlement is modelled as an explicit effect list; the mutable module-level
state of each file is a state record threaded through the handlers.
-/

namespace FigmaRelay

/-- JSON values as produced by JSON.parse (no undefined; field access on a
missing key is modelled as Option.none). -/
inductive Json where
  | null
  | bool (b : Bool)
  | num (n : Int)
  | str (s : String)
  | arr (elems : List Json)
  | obj (fields : List (String × Json))

/-- JavaScript truthiness of a JSON value (null, false, 0, "" are falsy;
arrays and objects are always truthy). -/
def Json.truthy : Json → Bool
  | .null => false
  | .bool b => b
  | .num n => n != 0
  | .str s => s != ""
  | .arr _ => true
  | .obj _ => true

/-- Truthiness of a possibly-absent JSON value: an absent field (undefined)
is falsy. -/
def optTruthy : Option Json → Bool
  | none => false
  | some j => j.truthy

/-- Truthiness of a nullable string (JS: null and "" are falsy). -/
def strTruthy : Option String → Bool
  | none => false
  | some s => s != ""

def Json.isNull : Json → Bool
  | .null => true
  | _ => false

/-- First-match association-list lookup over string keys (models Map.get /
property access). -/
def assocLookup {α : Type} : List (String × α) → String → Option α
  | [], _ => none
  | p :: rest, k => if p.1 = k then some p.2 else assocLookup rest k

/-- Property access data[k] on a parsed JSON value: defined only on objects,
undefined (none) otherwise. -/
def Json.field : Json → String → Option Json
  | .obj fs, k => assocLookup fs k
  | _, _ => none

/-! ## Relay Client (websocket.ts) -/

/-- An entry of the Pending Request Table (pendingRequests map): the active
timer is modelled by the absolute time at which it fires. -/
structure PendingEntry where
  deadline : Nat
  lastActivity : Nat
deriving DecidableEq

/-- Module-level mutable state of websocket.ts: the socket (open or not),
currentChannel, and the pendingRequests map. -/
structure ClientState where
  wsOpen : Bool
  currentChannel : Option String
  pending : List (String × PendingEntry)

/-- How a pending request promise is settled, distinguishing the rejection
reasons used by the source. -/
inductive Settle where
  | resolved (v : Json)
  -- reject(new Error(myResponse.error))
  | rejectedErr (e : Json)
  -- reject(new Error('Request to Figma timed out'))
  | rejectedTimeout
  -- reject(new Error(`Connection closed`))
  | rejectedClosed
  -- reject(new Error("Not connected to WebSocket server. Attempting to connect..."))
  | rejectedNotConnected
  -- reject(new Error("Must join a channel before sending commands. ..."))
  | rejectedMustJoin

/-- The message object embedded in an inbound envelope (myResponse =
json.message). -/
structure InMessage where
  id : Option String
  result : Option Json
  error : Option Json

/-- An inbound envelope as seen by the ws "message" handler after
JSON.parse. -/
structure InEnvelope where
  type : Option String
  id : Option String
  message : InMessage

def hasPending (st : ClientState) (id : String) : Bool :=
  (assocLookup st.pending id).isSome

def removePending (l : List (String × PendingEntry)) (id : String) :
    List (String × PendingEntry) :=
  l.filter (fun p => p.1 != id)

/-- clearTimeout + setTimeout(..., 120000) + lastActivity = Date.now() on the
entry with the given id (websocket.ts lines 97-106). -/
def resetTimer (l : List (String × PendingEntry)) (id : String) (now : Nat) :
    List (String × PendingEntry) :=
  l.map (fun p => if p.1 = id then (p.1, PendingEntry.mk (now + 120000) now) else p)

/-- The ws "message" handler of connectToFigma (websocket.ts lines 86-141).
Returns the new state and the settlement effects performed. -/
def handleMessage (st : ClientState) (now : Nat) (env : InEnvelope) :
    ClientState × List (String × Settle) :=
  if env.type = some "progress_update" then
    -- const requestId = json.id || ''
    let requestId := env.id.getD ""
    if requestId != "" && hasPending st requestId then
      ({ st with pending := resetTimer st.pending requestId now }, [])
    else
      (st, [])
  else
    let m := env.message
    match m.id with
    | some rid =>
      -- if (myResponse.id && pendingRequests.has(myResponse.id) && myResponse.result)
      if rid != "" && hasPending st rid && optTruthy m.result then
        let effs :=
          if optTruthy m.error then
            [(rid, Settle.rejectedErr (m.error.getD Json.null))]
          else if optTruthy m.result then
            [(rid, Settle.resolved (m.result.getD Json.null))]
          else []
        ({ st with pending := removePending st.pending rid }, effs)
      else
        (st, [])
    | none => (st, [])

/-- The timeout callback installed by sendCommandToFigma (lines 361-367) and
by the progress branch (lines 100-106): when the timer fires, an entry still
present is removed and rejected with the timeout error. -/
def fireTimeout (st : ClientState) (id : String) :
    ClientState × List (String × Settle) :=
  if hasPending st id then
    ({ st with pending := removePending st.pending id }, [(id, Settle.rejectedTimeout)])
  else
    (st, [])

/-- The ws "close" handler (lines 147-163): ws = null, every pending entry's
timer is cleared, its promise rejected with the connection-closed error, and
the entry deleted; currentChannel is not touched. -/
def handleClose (st : ClientState) : ClientState × List (String × Settle) :=
  ({ st with wsOpen := false, pending := [] },
   st.pending.map (fun p => (p.1, Settle.rejectedClosed)))

/-- The ws "open" handler (lines 75-84): connection established,
currentChannel = null. -/
def handleOpen (st : ClientState) : ClientState :=
  { st with wsOpen := true, currentChannel := none }

structure DisconnectResult where
  success : Bool
  message : String

/-- disconnect() (lines 242-258). -/
def disconnect (st : ClientState) : ClientState × DisconnectResult :=
  if strTruthy st.currentChannel then
    ({ st with currentChannel := none },
     { success := true,
       message := "Disconnected from channel: " ++ st.currentChannel.getD "" })
  else
    (st, { success := false, message := "Not connected to any channel" })

/-- The connected flag of getConnectionStatus() (line 272):
currentChannel !== null (note: not a truthiness test). -/
def connectedFlag (st : ClientState) : Bool :=
  st.currentChannel.isSome

/-- getCurrentChannel() (lines 304-306). -/
def getCurrentChannelFn (st : ClientState) : Option String :=
  st.currentChannel

/-- The outgoing request envelope built by sendCommandToFigma
(lines 344-358). -/
structure OutRequest where
  id : String
  type : String
  channel : Option String
  command : String

/-- Result of a sendCommandToFigma call: either the promise is rejected
immediately (nothing sent, no table entry) or the request was registered and
written to the socket. -/
inductive SendResult where
  | rejectedNow (reason : Settle)
  | sent (req : OutRequest)

/-- sendCommandToFigma (lines 323-381). freshId models the generated uuid,
now the value of Date.now(); the new table entry's timer is set to fire
timeoutMs from now. -/
def sendCommandToFigma (st : ClientState) (command : String)
    (paramsChannel : Option String) (timeoutMs : Nat) (now : Nat)
    (freshId : String) : ClientState × SendResult :=
  if !st.wsOpen then
    (st, SendResult.rejectedNow Settle.rejectedNotConnected)
  else if command != "join" && !(strTruthy st.currentChannel) then
    (st, SendResult.rejectedNow Settle.rejectedMustJoin)
  else
    ({ st with pending := st.pending ++ [(freshId, PendingEntry.mk (now + timeoutMs) now)] },
     SendResult.sent
       { id := freshId,
         type := if command = "join" then "join" else "message",
         channel := if command = "join" then paramsChannel else st.currentChannel,
         command := command })

/-! ## Auto-Connect Controller (websocket.ts autoConnect, lines 197-237) -/

/-- Outcome of the awaited joinChannel call inside autoConnect. -/
inductive JoinOutcome where
  | ok
  | err (msg : String)

structure AutoConnectResult where
  success : Bool
  channel : Option String
  message : String
  availableChannels : Option (List String)

/-- autoConnect(), as a function of the active channel list (from
getActiveChannels()), the client's currentChannel, and the outcome the
joinChannel attempt would have. -/
def autoConnect (channels : List String) (currentChannel : Option String)
    (join : JoinOutcome) : AutoConnectResult :=
  if channels.length = 0 then
    { success := false, channel := none,
      message := "No Figma plugins connected. Please run the Figma plugin first.",
      availableChannels := none }
  else if strTruthy currentChannel then
    { success := true, channel := currentChannel,
      message := "Already connected to channel: " ++ currentChannel.getD "",
      availableChannels := none }
  else if channels.length = 1 then
    match join with
    | JoinOutcome.ok =>
      { success := true, channel := some (channels.headD ""),
        message := "Connected to channel: " ++ channels.headD "",
        availableChannels := none }
    | JoinOutcome.err e =>
      { success := false, channel := none,
        message := "Failed to connect: " ++ e,
        availableChannels := none }
  else
    { success := false, channel := none,
      message := "Multiple channels available. Please use join_channel with one of: "
        ++ String.intercalate ", " channels,
      availableChannels := some channels }

/-! ## Relay Server (websocket-server.ts) -/

/-- Module-level mutable state of websocket-server.ts: the Channel Registry
(channels : Map<string, Set<ServerWebSocket>>, connections identified by Nat)
and the stats counters. Channel names are the opaque strings of the protocol.
-/
structure ServerState where
  channels : List (String × List Nat)
  totalConnections : Nat
  activeConnections : Int
  messagesSent : Nat
  messagesReceived : Nat
  errors : Nat

/-- Envelopes the server writes to a connection. -/
inductive ServerOut where
  -- {type: "error", message}
  | errorMsg (message : String)
  -- {type: "system", message: {id, result: "Connected to channel: ..."}, channel}
  | systemJoinConfirm (id : Option Json) (channel : String)
  -- {type: "system", message: "A new client has joined the channel", channel}
  | systemJoinNotice (channel : String)
  -- {type: "broadcast", message, channel}
  | broadcastMsg (channel : String) (payload : Option Json)
  -- a progress_update frame forwarded unchanged
  | progressFwd (data : Json)

/-- Transport effects the server handlers can perform. -/
inductive ServerEffect where
  | sendTo (conn : Nat) (out : ServerOut)
  | closeConn (conn : Nat)

/-- broadcastToChannel (websocket-server.ts lines 294-314): write the
serialized message to every member of the channel, skipping the excluded
client and any member whose transport is not open; each delivered write bumps
messagesSent. -/
def broadcastToChannel (st : ServerState) (openConns : Nat → Bool)
    (channelName : String) (out : ServerOut) (excludeClient : Option Nat) :
    ServerState × List ServerEffect :=
  match assocLookup st.channels channelName with
  | none => (st, [])
  | some clients =>
    let targets := clients.filter (fun c => excludeClient != some c && openConns c)
    ({ st with messagesSent := st.messagesSent + targets.length },
     targets.map (fun c => ServerEffect.sendTo c out))

/-- channels.set(name, members): replace in place when the key exists,
append otherwise (JS Map insertion order). -/
def setChannel (chs : List (String × List Nat)) (name : String)
    (members : List Nat) : List (String × List Nat) :=
  if (assocLookup chs name).isSome then
    chs.map (fun p => if p.1 = name then (name, members) else p)
  else
    chs ++ [(name, members)]

/-- data.channel, when it is a channel name (the protocol's channel names are
strings; a frame with a missing or non-string channel carries no usable
name). -/
def channelOf (data : Json) : Option String :=
  match data.field "channel" with
  | some (Json.str c) => some c
  | _ => none

/-- data.type, when it is a string (comparisons in the handler are strict
string equalities, so any non-string discriminant matches no branch). -/
def typeOf (data : Json) : Option String :=
  match data.field "type" with
  | some (Json.str t) => some t
  | _ => none

/-- The join branch of the server message handler (lines 135-166). -/
def handleJoin (st : ServerState) (openConns : Nat → Bool) (sender : Nat)
    (data : Json) : ServerState × List ServerEffect :=
  match channelOf data with
  | none =>
    (st, [ServerEffect.sendTo sender (ServerOut.errorMsg "Channel name is required")])
  | some channelName =>
    if channelName = "" then
      (st, [ServerEffect.sendTo sender (ServerOut.errorMsg "Channel name is required")])
    else
      let members := (assocLookup st.channels channelName).getD []
      let members1 := if sender ∈ members then members else members ++ [sender]
      let st1 := { st with channels := setChannel st.channels channelName members1,
                           messagesSent := st.messagesSent + 1 }
      let rest := broadcastToChannel st1 openConns channelName
        (ServerOut.systemJoinNotice channelName) (some sender)
      (rest.1,
       ServerEffect.sendTo sender
         (ServerOut.systemJoinConfirm (data.field "id") channelName) :: rest.2)

/-- The message branch of the server message handler (lines 169-188):
requires the sender to already be a member of the channel, else replies with
an error envelope; on success broadcasts to every open member, sender
included. -/
def handleChannelMessage (st : ServerState) (openConns : Nat → Bool)
    (sender : Nat) (data : Json) : ServerState × List ServerEffect :=
  match channelOf data with
  | none =>
    (st, [ServerEffect.sendTo sender (ServerOut.errorMsg "Channel name is required")])
  | some channelName =>
    if channelName = "" then
      (st, [ServerEffect.sendTo sender (ServerOut.errorMsg "Channel name is required")])
    else
      match assocLookup st.channels channelName with
      | none =>
        (st, [ServerEffect.sendTo sender (ServerOut.errorMsg "You must join the channel first")])
      | some members =>
        if sender ∈ members then
          broadcastToChannel st openConns channelName
            (ServerOut.broadcastMsg channelName (data.field "message")) none
        else
          (st, [ServerEffect.sendTo sender (ServerOut.errorMsg "You must join the channel first")])

/-- The progress_update branch of the server message handler (lines
191-197): forwarded unchanged to every open member of the named channel when
the channel exists; no membership check on the sender. -/
def handleProgressFwd (st : ServerState) (openConns : Nat → Bool)
    (data : Json) : ServerState × List ServerEffect :=
  match channelOf data with
  | none => (st, [])
  | some channelName =>
    match assocLookup st.channels channelName with
    | none => (st, [])
    | some _ =>
      broadcastToChannel st openConns channelName (ServerOut.progressFwd data) none

/-- An inbound transport frame: either it fails JSON.parse (carrying the
parse error text) or it parses to a JSON value. -/
inductive Frame where
  | unparseable (err : String)
  | parsed (data : Json)

/-- The server websocket "message" handler (lines 128-207):
messagesReceived is bumped first; a parse failure (and the property access on
a parsed bare null) lands in the catch block, which bumps the error counter
and answers the sender with an error envelope; a parsed frame is dispatched
on its type discriminant, and a frame matching no branch is ignored. -/
def serverHandleFrame (st : ServerState) (openConns : Nat → Bool)
    (sender : Nat) (frame : Frame) : ServerState × List ServerEffect :=
  let st0 := { st with messagesReceived := st.messagesReceived + 1 }
  match frame with
  | Frame.unparseable err =>
    ({ st0 with errors := st0.errors + 1 },
     [ServerEffect.sendTo sender
        (ServerOut.errorMsg ("Error processing message: " ++ err))])
  | Frame.parsed data =>
    if data.isNull then
      -- data.type on null throws a TypeError, caught by the same catch block
      ({ st0 with errors := st0.errors + 1 },
       [ServerEffect.sendTo sender
          (ServerOut.errorMsg "Error processing message: TypeError")])
    else
      match typeOf data with
      | some t =>
        if t = "join" then handleJoin st0 openConns sender data
        else if t = "message" then handleChannelMessage st0 openConns sender data
        else if t = "progress_update" then handleProgressFwd st0 openConns data
        else (st0, [])
      | none => (st0, [])

/-- The per-entry step of the server close handler (lines 214-223):
clients.delete(ws) removes the closing connection when it is a member, and a
channel whose member set became empty is deleted from the registry. -/
def closeEntry (conn : Nat) (p : String × List Nat) : Option (String × List Nat) :=
  if conn ∈ p.2 then
    let remaining := p.2.filter (fun c => c != conn)
    if remaining.isEmpty then none else some (p.1, remaining)
  else some p

/-- The server websocket "close" handler (lines 209-226): the connection is
removed from every channel it belonged to, any channel left empty is deleted,
and activeConnections is decremented. -/
def serverHandleClose (st : ServerState) (conn : Nat) : ServerState :=
  { st with
    channels := st.channels.filterMap (closeEntry conn),
    activeConnections := st.activeConnections - 1 }

/-- getActiveChannels (lines 259-261): Array.from(channels.keys()). -/
def getActiveChannels (st : ServerState) : List String :=
  st.channels.map Prod.fst

/-- getChannelClientCount (lines 266-268). -/
def getChannelClientCount (st : ServerState) (channelName : String) : Nat :=
  ((assocLookup st.channels channelName).map List.length).getD 0

/-! ## Helper lemmas -/

theorem assocLookup_mem_keys {α : Type} (l : List (String × α)) (k : String)
    (e : α) (h : assocLookup l k = some e) : k ∈ l.map Prod.fst := by
  induction l with
  | nil => simp [assocLookup] at h
  | cons p rest ih =>
    by_cases hk : p.1 = k
    · simp [hk]
    · simp only [assocLookup, if_neg hk] at h
      simp [ih h]

theorem assocLookup_removePending (l : List (String × PendingEntry))
    (id : String) : assocLookup (removePending l id) id = none := by
  induction l with
  | nil => rfl
  | cons p rest ih =>
    by_cases hk : p.1 = id
    · simpa [removePending, List.filter_cons, hk] using ih
    · simpa [removePending, List.filter_cons, hk, assocLookup] using ih

theorem resetTimer_map_fst (l : List (String × PendingEntry)) (id : String)
    (now : Nat) : (resetTimer l id now).map Prod.fst = l.map Prod.fst := by
  induction l with
  | nil => rfl
  | cons p rest ih =>
    by_cases hk : p.1 = id
    · simp [resetTimer, hk] at ih ⊢
      exact ih
    · simp [resetTimer, hk] at ih ⊢
      exact ih

theorem assocLookup_resetTimer (l : List (String × PendingEntry)) (id : String)
    (now : Nat) (h : (assocLookup l id).isSome = true) :
    assocLookup (resetTimer l id now) id = some (PendingEntry.mk (now + 120000) now) := by
  induction l with
  | nil => simp [assocLookup] at h
  | cons p rest ih =>
    by_cases hk : p.1 = id
    · simp [resetTimer, assocLookup, hk]
    · simp only [assocLookup, if_neg hk] at h
      simp only [resetTimer, List.map, if_neg hk, assocLookup, if_neg hk]
      exact ih h

theorem assocLookup_append_new (l : List (String × PendingEntry)) (k : String)
    (e : PendingEntry) (h : assocLookup l k = none) :
    assocLookup (l ++ [(k, e)]) k = some e := by
  induction l with
  | nil => simp [assocLookup]
  | cons p rest ih =>
    by_cases hk : p.1 = k
    · simp [assocLookup, hk] at h
    · simp only [assocLookup, if_neg hk] at h
      simp only [List.cons_append, assocLookup, if_neg hk]
      exact ih h

theorem lookup_mem_mapped {α β : Type} (l : List (String × α)) (k : String)
    (e : α) (x : β) (h : assocLookup l k = some e) :
    (k, x) ∈ l.map (fun p => (p.1, x)) := by
  induction l with
  | nil => simp [assocLookup] at h
  | cons p rest ih =>
    by_cases hk : p.1 = k
    · simp [hk]
    · simp only [assocLookup, if_neg hk] at h
      simp [ih h]

theorem closeEntry_name (conn : Nat) (p q : String × List Nat)
    (h : closeEntry conn p = some q) : q.1 = p.1 := by
  unfold closeEntry at h
  by_cases hm : conn ∈ p.2
  · simp only [if_pos hm] at h
    by_cases he : (p.2.filter (fun c => c != conn)).isEmpty
    · simp [he] at h
    · simp only [if_neg he] at h
      cases h
      rfl
  · simp only [if_neg hm] at h
    cases h
    rfl

theorem closeEntry_nonempty (conn : Nat) (p q : String × List Nat)
    (hp : p.2 ≠ []) (h : closeEntry conn p = some q) : q.2 ≠ [] := by
  unfold closeEntry at h
  by_cases hm : conn ∈ p.2
  · simp only [if_pos hm] at h
    by_cases he : (p.2.filter (fun c => c != conn)).isEmpty
    · simp [he] at h
    · simp only [if_neg he] at h
      cases h
      intro hnil
      exact he (List.isEmpty_iff.mpr hnil)
  · simp only [if_neg hm] at h
    cases h
    exact hp

theorem close_keys_subset (l : List (String × List Nat)) (conn : Nat)
    (C : String) (h : C ∈ (l.filterMap (closeEntry conn)).map Prod.fst) :
    C ∈ l.map Prod.fst := by
  induction l with
  | nil => simp at h
  | cons p rest ih =>
    rcases hc : closeEntry conn p with _ | q
    · simp only [List.filterMap_cons, hc] at h
      simp [ih h]
    · simp only [List.filterMap_cons, hc, List.map_cons, List.mem_cons] at h
      rcases h with h | h
      · simp [h ▸ closeEntry_name conn p q hc]
      · simp [ih h]

theorem close_removes_sole (l : List (String × List Nat)) (conn : Nat)
    (C : String) (hnodup : (l.map Prod.fst).Nodup)
    (hsole : assocLookup l C = some [conn]) :
    C ∉ (l.filterMap (closeEntry conn)).map Prod.fst := by
  induction l with
  | nil => simp [assocLookup] at hsole
  | cons p rest ih =>
    rw [List.map_cons, List.nodup_cons] at hnodup
    by_cases hk : p.1 = C
    · have hm : p.2 = [conn] := by
        simp [assocLookup, hk] at hsole
        exact hsole
      have hce : closeEntry conn p = none := by
        simp [closeEntry, hm]
      rw [List.filterMap_cons, hce]
      intro hmem
      apply hnodup.1
      rw [hk]
      exact close_keys_subset rest conn C hmem
    · simp only [assocLookup, if_neg hk] at hsole
      have hrest := ih hnodup.2 hsole
      rcases hc : closeEntry conn p with _ | q
      · rw [List.filterMap_cons, hc]
        exact hrest
      · rw [List.filterMap_cons, hc, List.map_cons]
        intro hmem
        rcases List.mem_cons.mp hmem with h | h
        · have hcp : C = p.1 := by
            rw [h, closeEntry_name conn p q hc]
          exact hk hcp.symm
        · exact hrest h

theorem broadcast_channels_eq (st : ServerState) (openConns : Nat → Bool)
    (channelName : String) (out : ServerOut) (ex : Option Nat) :
    (broadcastToChannel st openConns channelName out ex).1.channels = st.channels := by
  unfold broadcastToChannel
  rcases assocLookup st.channels channelName with _ | clients <;> rfl

theorem setChannel_mem_keys (chs : List (String × List Nat)) (name : String)
    (members : List Nat) : name ∈ (setChannel chs name members).map Prod.fst := by
  unfold setChannel
  by_cases h : (assocLookup chs name).isSome
  · simp only [if_pos h]
    rcases he : assocLookup chs name with _ | e
    · simp [he] at h
    · have hmem := assocLookup_mem_keys chs name e he
      rcases List.mem_map.mp hmem with ⟨p, hp, hfst⟩
      refine List.mem_map.mpr ⟨if p.1 = name then (name, members) else p, List.mem_map_of_mem _ hp, ?_⟩
      simp [hfst]
  · simp [if_neg h]

theorem typeOf_not_null (data : Json) (t : String) (h : typeOf data = some t) :
    data.isNull = false := by
  cases data <;> simp_all [typeOf, Json.field, Json.isNull]

/-! ## Claim theorems -/

/-- C1 (counterexample): an inbound non-progress envelope whose embedded
message id matches a pending entry and which carries an error field but no
result field does not reject the entry: the handler requires a truthy result
field before it looks at the error, so the entry stays in the table and no
settlement happens, contradicting the claim that an error field alone causes
rejection and removal. -/
theorem c1_error_without_result_ignored :
    hasPending (handleMessage (ClientState.mk true (some "design")
        [("r1", PendingEntry.mk 60000 0)]) 0
      (InEnvelope.mk (some "system") none
        (InMessage.mk (some "r1") none (some (Json.str "boom"))))).1 "r1" = true ∧
    (handleMessage (ClientState.mk true (some "design")
        [("r1", PendingEntry.mk 60000 0)]) 0
      (InEnvelope.mk (some "system") none
        (InMessage.mk (some "r1") none (some (Json.str "boom"))))).2 = [] :=
  ⟨rfl, rfl⟩

/-- C1 (amended): for an inbound non-progress envelope whose embedded message
id matches a pending entry, if the message carries a (truthy) result field the
entry is removed and settled: rejected with the error when an error field is
also present, resolved with the result otherwise; if the message carries no
(truthy) result field the handler does nothing, even when an error field is
present. -/
theorem c1_response_settlement (st : ClientState) (now : Nat)
    (env : InEnvelope) (rid : String)
    (htype : env.type ≠ some "progress_update")
    (hid : env.message.id = some rid) (hne : rid ≠ "")
    (hpend : hasPending st rid = true) :
    (optTruthy env.message.result = true →
      (handleMessage st now env).1.pending = removePending st.pending rid ∧
      (handleMessage st now env).2 =
        (if optTruthy env.message.error then
          [(rid, Settle.rejectedErr (env.message.error.getD Json.null))]
        else
          [(rid, Settle.resolved (env.message.result.getD Json.null))])) ∧
    (optTruthy env.message.result = false →
      handleMessage st now env = (st, [])) := by
  constructor
  · intro hres
    by_cases herr : optTruthy env.message.error
    · simp [handleMessage, htype, hid, hne, hpend, hres, herr]
    · simp [handleMessage, htype, hid, hne, hpend, hres, herr]
  · intro hres
    simp [handleMessage, htype, hid, hne, hpend, hres]

/-- C1 (witness): a concrete matching response with a result and no error is
resolved and its entry removed. -/
theorem c1_response_settlement_witness :
    (handleMessage (ClientState.mk true (some "design")
        [("r2", PendingEntry.mk 60000 0)]) 0
      (InEnvelope.mk none none
        (InMessage.mk (some "r2") (some (Json.str "ok")) none))).1.pending = [] ∧
    (handleMessage (ClientState.mk true (some "design")
        [("r2", PendingEntry.mk 60000 0)]) 0
      (InEnvelope.mk none none
        (InMessage.mk (some "r2") (some (Json.str "ok")) none))).2 =
      [("r2", Settle.resolved (Json.str "ok"))] := by
  have h := (c1_response_settlement
    (ClientState.mk true (some "design") [("r2", PendingEntry.mk 60000 0)]) 0
    (InEnvelope.mk none none
      (InMessage.mk (some "r2") (some (Json.str "ok")) none)) "r2"
    (by decide) rfl (by decide) rfl).1 rfl
  refine ⟨?_, ?_⟩
  · rw [h.1]
    rfl
  · rw [h.2]
    rfl

/-- C2: a progress_update envelope whose top-level id matches a pending entry
does not settle or remove it; the entry's timer is replaced by one firing
120000 ms from now and its last-activity timestamp becomes now. -/
theorem c2_progress_resets_deadline (st : ClientState) (now : Nat)
    (env : InEnvelope) (rid : String)
    (htype : env.type = some "progress_update")
    (hid : env.id = some rid) (hne : rid ≠ "")
    (hpend : hasPending st rid = true) :
    (handleMessage st now env).2 = [] ∧
    (handleMessage st now env).1.pending.map Prod.fst = st.pending.map Prod.fst ∧
    assocLookup (handleMessage st now env).1.pending rid =
      some (PendingEntry.mk (now + 120000) now) := by
  have hred : handleMessage st now env =
      ({ st with pending := resetTimer st.pending rid now }, []) := by
    simp [handleMessage, htype, hid, hne, hpend]
  rw [hred]
  exact ⟨rfl, resetTimer_map_fst _ _ _, assocLookup_resetTimer _ _ _ hpend⟩

/-- C2 (witness): a request with deadline 100 that receives a progress update
at time 80 keeps its entry, with the deadline moved to 120080. -/
theorem c2_progress_resets_deadline_witness :
    (handleMessage (ClientState.mk true (some "design")
        [("r1", PendingEntry.mk 100 0)]) 80
      (InEnvelope.mk (some "progress_update") (some "r1")
        (InMessage.mk none none none))).2 = [] ∧
    (handleMessage (ClientState.mk true (some "design")
        [("r1", PendingEntry.mk 100 0)]) 80
      (InEnvelope.mk (some "progress_update") (some "r1")
        (InMessage.mk none none none))).1.pending.map Prod.fst = ["r1"] ∧
    assocLookup (handleMessage (ClientState.mk true (some "design")
        [("r1", PendingEntry.mk 100 0)]) 80
      (InEnvelope.mk (some "progress_update") (some "r1")
        (InMessage.mk none none none))).1.pending "r1" =
      some (PendingEntry.mk 120080 80) := by
  have h := c2_progress_resets_deadline
    (ClientState.mk true (some "design") [("r1", PendingEntry.mk 100 0)]) 80
    (InEnvelope.mk (some "progress_update") (some "r1")
      (InMessage.mk none none none)) "r1" rfl rfl (by decide) rfl
  exact ⟨h.1, h.2.1, h.2.2⟩

/-- C3: an entry registered by sendCommandToFigma carries a timer firing
timeoutMs after the send; when that timer fires the entry is removed from the
table and rejected with the timeout error, and any envelope arriving after
the removal whose embedded message id is that id leaves the state untouched
and settles nothing. -/
theorem c3_timeout_rejects_then_late_response_ignored (st : ClientState)
    (cmd : String) (params : Option String) (timeoutMs now : Nat)
    (freshId : String) (st2 : ClientState) (req : OutRequest)
    (hfresh : hasPending st freshId = false)
    (hsent : sendCommandToFigma st cmd params timeoutMs now freshId =
      (st2, SendResult.sent req)) :
    assocLookup st2.pending freshId = some (PendingEntry.mk (now + timeoutMs) now) ∧
    fireTimeout st2 freshId =
      ({ st2 with pending := removePending st2.pending freshId },
       [(freshId, Settle.rejectedTimeout)]) ∧
    hasPending { st2 with pending := removePending st2.pending freshId } freshId = false ∧
    (∀ st3 : ClientState, ∀ now2 : Nat, ∀ env : InEnvelope,
      hasPending st3 freshId = false →
      env.type ≠ some "progress_update" →
      env.message.id = some freshId →
      handleMessage st3 now2 env = (st3, [])) := by
  have hnone : assocLookup st.pending freshId = none := by
    rcases ho : assocLookup st.pending freshId with _ | e
    · rfl
    · simp [hasPending, ho] at hfresh
  unfold sendCommandToFigma at hsent
  split at hsent
  · simp at hsent
  · split at hsent
    · simp at hsent
    · injection hsent with h1 h2
      subst h1
      have hlook : assocLookup
          (st.pending ++ [(freshId, PendingEntry.mk (now + timeoutMs) now)]) freshId =
          some (PendingEntry.mk (now + timeoutMs) now) :=
        assocLookup_append_new _ _ _ hnone
      refine ⟨hlook, ?_, ?_, ?_⟩
      · simp [fireTimeout, hasPending, hlook]
      · simp [hasPending, assocLookup_removePending]
      · intro st3 now2 env hp3 ht3 hid3
        simp [handleMessage, ht3, hid3, hp3]

/-- C3 (witness): a concrete command registered with a 60000 ms window and
never answered is rejected with the timeout error when its timer fires, and a
late matching response is ignored. -/
theorem c3_timeout_witness :
    assocLookup (sendCommandToFigma (ClientState.mk true (some "design") [])
        "get_document_info" none 60000 5 "u1").1.pending "u1" =
      some (PendingEntry.mk 60005 5) ∧
    (fireTimeout (sendCommandToFigma (ClientState.mk true (some "design") [])
        "get_document_info" none 60000 5 "u1").1 "u1").2 =
      [("u1", Settle.rejectedTimeout)] ∧
    handleMessage (ClientState.mk true (some "design") []) 99
      (InEnvelope.mk none none
        (InMessage.mk (some "u1") (some (Json.str "late")) none)) =
      (ClientState.mk true (some "design") [], []) := by
  have h := c3_timeout_rejects_then_late_response_ignored
    (ClientState.mk true (some "design") []) "get_document_info" none 60000 5 "u1"
    (sendCommandToFigma (ClientState.mk true (some "design") [])
      "get_document_info" none 60000 5 "u1").1
    { id := "u1", type := "message", channel := some "design",
      command := "get_document_info" }
    rfl rfl
  exact ⟨h.1, by rw [h.2.1], h.2.2.2 _ 99 _ rfl (by decide) rfl⟩

/-- C4: the close handler rejects every entry of the Pending Request Table
with the connection-closed error and leaves the table empty. -/
theorem c4_close_rejects_all_pending (st : ClientState) :
    (handleClose st).1.pending = [] ∧
    (handleClose st).2 = st.pending.map (fun p => (p.1, Settle.rejectedClosed)) ∧
    (∀ id : String, hasPending st id = true →
      (id, Settle.rejectedClosed) ∈ (handleClose st).2) := by
  refine ⟨rfl, rfl, ?_⟩
  intro id hid
  rcases ho : assocLookup st.pending id with _ | e
  · simp [hasPending, ho] at hid
  · exact lookup_mem_mapped _ _ _ _ ho

/-- C4 (witness): closing with two outstanding requests rejects both with the
connection-closed error and empties the table. -/
theorem c4_close_witness :
    (handleClose (ClientState.mk true (some "design")
      [("a", PendingEntry.mk 1 0), ("b", PendingEntry.mk 2 0)])).1.pending = [] ∧
    ("a", Settle.rejectedClosed) ∈ (handleClose (ClientState.mk true (some "design")
      [("a", PendingEntry.mk 1 0), ("b", PendingEntry.mk 2 0)])).2 ∧
    ("b", Settle.rejectedClosed) ∈ (handleClose (ClientState.mk true (some "design")
      [("a", PendingEntry.mk 1 0), ("b", PendingEntry.mk 2 0)])).2 := by
  have h := c4_close_rejects_all_pending (ClientState.mk true (some "design")
    [("a", PendingEntry.mk 1 0), ("b", PendingEntry.mk 2 0)])
  exact ⟨h.1, h.2.2 "a" rfl, h.2.2 "b" rfl⟩

/-- C5: with the transport open, a non-join command issued while
currentChannel is null is rejected immediately with the must-join error,
leaving the state (and so the Pending Request Table) unchanged and writing
nothing, while a join command in the same situation is registered and sent. -/
theorem c5_unjoined_nonjoin_rejected (st : ClientState) (cmd : String)
    (params : Option String) (timeoutMs now : Nat) (freshId : String)
    (hopen : st.wsOpen = true) :
    (cmd ≠ "join" → st.currentChannel = none →
      sendCommandToFigma st cmd params timeoutMs now freshId =
        (st, SendResult.rejectedNow Settle.rejectedMustJoin)) ∧
    (∃ req : OutRequest,
      sendCommandToFigma st "join" params timeoutMs now freshId =
        ({ st with pending :=
            st.pending ++ [(freshId, PendingEntry.mk (now + timeoutMs) now)] },
         SendResult.sent req)) := by
  constructor
  · intro hcmd hchan
    simp [sendCommandToFigma, hopen, hcmd, hchan, strTruthy]
  · refine ⟨{ id := freshId, type := "join", channel := params, command := "join" }, ?_⟩
    simp [sendCommandToFigma, hopen]

/-- C5 (witness): a concrete non-join command while unjoined is rejected with
the must-join error and adds no table entry; a join goes through. -/
theorem c5_unjoined_witness :
    sendCommandToFigma (ClientState.mk true none []) "get_document_info"
        none 60000 0 "u1" =
      (ClientState.mk true none [], SendResult.rejectedNow Settle.rejectedMustJoin) ∧
    (∃ req : OutRequest,
      sendCommandToFigma (ClientState.mk true none []) "join"
          (some "design") 60000 0 "u1" =
        (ClientState.mk true none [("u1", PendingEntry.mk 60000 0)],
         SendResult.sent req)) := by
  have h := c5_unjoined_nonjoin_rejected (ClientState.mk true none [])
    "get_document_info" none 60000 0 "u1" rfl
  have h2 := c5_unjoined_nonjoin_rejected (ClientState.mk true none [])
    "get_document_info" (some "design") 60000 0 "u1" rfl
  exact ⟨h.1 (by decide) rfl, h2.2⟩

/-- C8 (counterexample): autoConnect with zero active channels while a
channel is currently joined returns failure (the no-participant message), not
the success that the claim's already-joined clause demands. -/
theorem c8_joined_with_zero_channels_fails :
    strTruthy (some "design") = true ∧
    (autoConnect [] (some "design") JoinOutcome.ok).success = false :=
  ⟨rfl, rfl⟩

/-- C8 (amended): autoConnect returns the no-participant failure whenever the
active channel list is empty (even if a channel is currently joined); with at
least one active channel and a channel already joined it reports success with
the existing channel; with exactly one active channel and none joined it
reports the join attempt's outcome; with more than one active channel and
none joined it fails carrying the candidate list. -/
theorem c8_autoconnect_cases (channels : List String) (cc : Option String)
    (join : JoinOutcome) :
    (channels = [] → autoConnect channels cc join =
      { success := false, channel := none,
        message := "No Figma plugins connected. Please run the Figma plugin first.",
        availableChannels := none }) ∧
    (channels ≠ [] → strTruthy cc = true → autoConnect channels cc join =
      { success := true, channel := cc,
        message := "Already connected to channel: " ++ cc.getD "",
        availableChannels := none }) ∧
    (∀ c : String, channels = [c] → cc = none →
      (join = JoinOutcome.ok → autoConnect channels cc join =
        { success := true, channel := some c,
          message := "Connected to channel: " ++ c,
          availableChannels := none }) ∧
      (∀ e : String, join = JoinOutcome.err e → autoConnect channels cc join =
        { success := false, channel := none,
          message := "Failed to connect: " ++ e,
          availableChannels := none })) ∧
    (1 < channels.length → cc = none → autoConnect channels cc join =
      { success := false, channel := none,
        message := "Multiple channels available. Please use join_channel with one of: "
          ++ String.intercalate ", " channels,
        availableChannels := some channels }) := by
  refine ⟨?_, ?_, ?_, ?_⟩
  · intro h
    subst h
    rfl
  · intro hne htr
    have hlen : ¬ channels.length = 0 := fun h => hne (List.length_eq_zero.mp h)
    simp [autoConnect, hlen, htr]
  · intro c hch hcc
    subst hch
    subst hcc
    constructor
    · intro hj
      subst hj
      rfl
    · intro e hj
      subst hj
      rfl
  · intro hlen hcc
    subst hcc
    have h0 : ¬ channels.length = 0 := by omega
    have h1 : ¬ channels.length = 1 := by omega
    simp [autoConnect, h0, h1, strTruthy]

/-- C8 (witness): the one-channel, unjoined, successful-join case reports
success with that channel. -/
theorem c8_autoconnect_witness :
    autoConnect ["design"] none JoinOutcome.ok =
      { success := true, channel := some "design",
        message := "Connected to channel: design",
        availableChannels := none } :=
  ((c8_autoconnect_cases ["design"] none JoinOutcome.ok).2.2.1 "design" rfl
    rfl).1 rfl

/-- C10: the client close handler does not modify currentChannel, so after a
transport close getCurrentChannel still returns the previously joined channel
and the connected flag of getConnectionStatus is unchanged; a subsequent open
event resets currentChannel to null, and disconnect clears it. -/
theorem c10_close_preserves_current_channel (st : ClientState) :
    (handleClose st).1.currentChannel = st.currentChannel ∧
    getCurrentChannelFn (handleClose st).1 = getCurrentChannelFn st ∧
    connectedFlag (handleClose st).1 = connectedFlag st ∧
    (handleOpen (handleClose st).1).currentChannel = none ∧
    (strTruthy st.currentChannel = true →
      (disconnect (handleClose st).1).1.currentChannel = none) := by
  refine ⟨rfl, rfl, rfl, rfl, ?_⟩
  intro htr
  have h : strTruthy (handleClose st).1.currentChannel = true := htr
  simp [disconnect, h]

/-- C10 (witness): after closing while joined to a concrete channel, the
channel is still reported and disconnect clears it. -/
theorem c10_close_witness :
    (handleClose (ClientState.mk true (some "design")
      [("a", PendingEntry.mk 1 0)])).1.currentChannel = some "design" ∧
    connectedFlag (handleClose (ClientState.mk true (some "design")
      [("a", PendingEntry.mk 1 0)])).1 = true ∧
    (disconnect (handleClose (ClientState.mk true (some "design")
      [("a", PendingEntry.mk 1 0)])).1).1.currentChannel = none := by
  have h := c10_close_preserves_current_channel
    (ClientState.mk true (some "design") [("a", PendingEntry.mk 1 0)])
  exact ⟨h.1, h.2.2.1, h.2.2.2.2 rfl⟩

/-- C6: when a connection that is the sole member of a channel closes, that
channel is absent from getActiveChannels afterward; the close handler never
produces an empty channel from a registry without empty channels; and joining
a channel puts its name into the registry. -/
theorem c6_last_leave_removes_channel (st : ServerState) (C : String)
    (conn : Nat) (hnodup : (st.channels.map Prod.fst).Nodup)
    (hsole : assocLookup st.channels C = some [conn]) :
    C ∉ getActiveChannels (serverHandleClose st conn) ∧
    ((∀ q ∈ st.channels, q.2 ≠ []) →
      ∀ q ∈ (serverHandleClose st conn).channels, q.2 ≠ []) ∧
    (∀ openConns : Nat → Bool, ∀ sender : Nat, ∀ data : Json,
      channelOf data = some C → C ≠ "" →
      C ∈ getActiveChannels (handleJoin st openConns sender data).1) := by
  refine ⟨close_removes_sole st.channels conn C hnodup hsole, ?_, ?_⟩
  · intro hne q hq
    rcases List.mem_filterMap.mp hq with ⟨p, hp, hcp⟩
    exact closeEntry_nonempty conn p q (hne p hp) hcp
  · intro openConns sender data hchan hcne
    unfold handleJoin
    rw [hchan]
    simp only [if_neg hcne]
    unfold getActiveChannels
    rw [broadcast_channels_eq]
    exact setChannel_mem_keys _ _ _

/-- C6 (witness): closing the sole member of a concrete channel removes the
channel from the active list. -/
theorem c6_last_leave_witness :
    "design" ∉ getActiveChannels
      (serverHandleClose (ServerState.mk [("design", [5])] 1 1 0 0 0) 5) :=
  (c6_last_leave_removes_channel (ServerState.mk [("design", [5])] 1 1 0 0 0)
    "design" 5 (by decide) rfl).1

/-- C7: a message envelope naming channel C from a sender that is a member of
C is broadcast to exactly the open members of C (sender included) and changes
no membership; from a non-member it yields only an error envelope back to the
sender and no broadcast. -/
theorem c7_message_broadcast (st : ServerState) (openConns : Nat → Bool)
    (sender : Nat) (data : Json) (C : String)
    (htype : typeOf data = some "message")
    (hchan : channelOf data = some C) (hne : C ≠ "") :
    (∀ members : List Nat, assocLookup st.channels C = some members →
      sender ∈ members →
      (serverHandleFrame st openConns sender (Frame.parsed data)).1.channels =
        st.channels ∧
      (∀ conn : Nat,
        ServerEffect.sendTo conn (ServerOut.broadcastMsg C (data.field "message")) ∈
            (serverHandleFrame st openConns sender (Frame.parsed data)).2 ↔
          conn ∈ members ∧ openConns conn = true) ∧
      (∀ e ∈ (serverHandleFrame st openConns sender (Frame.parsed data)).2,
        ∃ conn : Nat, conn ∈ members ∧ openConns conn = true ∧
          e = ServerEffect.sendTo conn
            (ServerOut.broadcastMsg C (data.field "message")))) ∧
    ((∀ members : List Nat, assocLookup st.channels C = some members →
        sender ∉ members) →
      serverHandleFrame st openConns sender (Frame.parsed data) =
        ({ st with messagesReceived := st.messagesReceived + 1 },
         [ServerEffect.sendTo sender
            (ServerOut.errorMsg "You must join the channel first")])) := by
  have hnn : data.isNull = false := typeOf_not_null data "message" htype
  have hred : serverHandleFrame st openConns sender (Frame.parsed data) =
      handleChannelMessage { st with messagesReceived := st.messagesReceived + 1 }
        openConns sender data := by
    simp [serverHandleFrame, hnn, htype]
  constructor
  · intro members hmem hin
    have hred2 : serverHandleFrame st openConns sender (Frame.parsed data) =
        broadcastToChannel { st with messagesReceived := st.messagesReceived + 1 }
          openConns C (ServerOut.broadcastMsg C (data.field "message")) none := by
      rw [hred]
      simp [handleChannelMessage, hchan, hne, hmem, hin]
    have hbne : ∀ a : Nat, ((none : Option Nat) != some a) = true := fun a => rfl
    rw [hred2]
    unfold broadcastToChannel
    rw [hmem]
    refine ⟨rfl, ?_, ?_⟩
    · intro conn
      constructor
      · intro hc
        rcases List.mem_map.mp hc with ⟨a, ha, hae⟩
        have : a = conn := by
          injection hae
        subst this
        have := List.mem_filter.mp ha
        refine ⟨this.1, ?_⟩
        simpa [hbne] using this.2
      · intro ⟨hc1, hc2⟩
        refine List.mem_map.mpr ⟨conn, List.mem_filter.mpr ⟨hc1, ?_⟩, rfl⟩
        simp [hbne, hc2]
    · intro e he
      rcases List.mem_map.mp he with ⟨a, ha, hae⟩
      have hf := List.mem_filter.mp ha
      refine ⟨a, hf.1, ?_, hae.symm⟩
      simpa [hbne] using hf.2
  · intro hnot
    rw [hred]
    rcases hmem : assocLookup st.channels C with _ | members
    · simp [handleChannelMessage, hchan, hne, hmem]
    · simp [handleChannelMessage, hchan, hne, hmem, hnot members hmem]

/-- C7 (witness): in a concrete registry, a member's message reaches the
other member of its channel, and a non-member of the channel only gets the
join-first error. -/
theorem c7_message_witness :
    ServerEffect.sendTo 7 (ServerOut.broadcastMsg "design" (some (Json.str "hi"))) ∈
      (serverHandleFrame (ServerState.mk [("design", [5, 7]), ("other", [9])] 3 3 0 0 0)
        (fun _ => true) 5
        (Frame.parsed (Json.obj [("type", Json.str "message"),
          ("channel", Json.str "design"), ("message", Json.str "hi")]))).2 := by
  have h := (c7_message_broadcast
    (ServerState.mk [("design", [5, 7]), ("other", [9])] 3 3 0 0 0)
    (fun _ => true) 5
    (Json.obj [("type", Json.str "message"), ("channel", Json.str "design"),
      ("message", Json.str "hi")])
    "design" rfl rfl (by decide)).1 [5, 7] rfl (by decide)
  exact (h.2.1 7).mpr ⟨by decide, rfl⟩

/-- C9 (counterexample): a parseable frame with no recognized type
discriminant is silently ignored: the server sends nothing back (no error
envelope) and the error counter is unchanged, contradicting the claim that
any frame with a missing discriminant is answered with an error envelope and
counted. -/
theorem c9_missing_discriminant_ignored :
    (serverHandleFrame (ServerState.mk [("design", [5])] 1 1 0 0 0)
      (fun _ => true) 5 (Frame.parsed (Json.obj []))).2 = [] ∧
    (serverHandleFrame (ServerState.mk [("design", [5])] 1 1 0 0 0)
      (fun _ => true) 5 (Frame.parsed (Json.obj []))).1.errors = 0 :=
  ⟨rfl, rfl⟩

/-- C9 (amended): a frame that fails JSON parsing is answered with an error
envelope to the originating connection and increments the error counter,
without closing the connection, changing membership, or delivering anything
to other connections; a parseable (non-null) frame whose type discriminant is
missing or unrecognized is silently ignored: no reply, no error increment, no
membership change, no delivery, connection left open. -/
theorem c9_malformed_frames (st : ServerState) (openConns : Nat → Bool)
    (sender : Nat) :
    (∀ e : String, serverHandleFrame st openConns sender (Frame.unparseable e) =
      ({ st with messagesReceived := st.messagesReceived + 1,
                 errors := st.errors + 1 },
       [ServerEffect.sendTo sender
          (ServerOut.errorMsg ("Error processing message: " ++ e))])) ∧
    (∀ data : Json, data.isNull = false →
      (∀ t : String, typeOf data = some t →
        t ≠ "join" ∧ t ≠ "message" ∧ t ≠ "progress_update") →
      serverHandleFrame st openConns sender (Frame.parsed data) =
        ({ st with messagesReceived := st.messagesReceived + 1 }, [])) := by
  constructor
  · intro e
    rfl
  · intro data hnn hunrec
    rcases ht : typeOf data with _ | t
    · simp [serverHandleFrame, hnn, ht]
    · obtain ⟨h1, h2, h3⟩ := hunrec t ht
      simp [serverHandleFrame, hnn, ht, h1, h2, h3]

/-- C9 (witness): a concrete frame with an unrecognized type discriminant is
ignored without any reply or error count. -/
theorem c9_malformed_witness :
    serverHandleFrame (ServerState.mk [("design", [5])] 1 1 2 2 0)
        (fun _ => true) 5 (Frame.parsed (Json.obj [("type", Json.str "ping")])) =
      (ServerState.mk [("design", [5])] 1 1 2 3 0, []) := by
  have h := (c9_malformed_frames (ServerState.mk [("design", [5])] 1 1 2 2 0)
    (fun _ => true) 5).2 (Json.obj [("type", Json.str "ping")]) rfl
    (fun t ht => by
      injection ht with hv
      subst hv
      exact ⟨by decide, by decide, by decide⟩)
  exact h

end FigmaRelay
